import Mathlib

/-!
Verification development for the Azure Log Analytics scaler
(`pkg/scalers/azure_log_analytics_scaler.go`).

The Go code is shallowly embedded: pure computations become Lean
functions, the token cache becomes explicit state passing, HTTP and JSON
decoding become oracle parameters supplied by the environment, and the
Go runtime panics that the code can hit (nil-pointer dereference, index
out of range) are modelled as explicit `panic` outcomes.  `int64` values
are modelled as `Int` (epoch seconds and metric values stay far below
2^63, and no claim depends on wrap-around), and JSON numbers decoded
into Go `float64` are modelled as `Rat`: the only operations the code
performs on them are comparison with zero and conversion to `int64`
(truncation toward zero), both of which are exact.
-/

/-! ### Data model (structs of the Go file) -/

/-- Embeds the anonymous column struct of `queryResult`
(`{Name string; Type string}`). -/
structure Column where
  name : String
  type : String
deriving DecidableEq

/-- One dynamically-typed cell of a result row (`interface{}` in Go).
A JSON value decodes to `nil` (null), a `float64` (any JSON number), or
some other shape on which the `.(float64)` type assertion fails. -/
inductive Cell where
  | null
  | num (q : Rat)
  | other
deriving DecidableEq

/-- Embeds the anonymous table struct of `queryResult`. -/
structure QueryTable where
  name : String
  columns : List Column
  rows : List (List Cell)
deriving DecidableEq

/-- Embeds `queryResult` (the decoded JSON response of the query API). -/
structure QueryResult where
  tables : List QueryTable
deriving DecidableEq

/-- Embeds `metricsData` (`value int64; threshold int64`). -/
structure MetricsData where
  value : Int
  threshold : Int
deriving DecidableEq

/-- Embeds `tokenData` (numeric JSON fields are `int`/`int64` in Go). -/
structure TokenData where
  tokenType : String
  expiresIn : Int
  extExpiresIn : Int
  expiresOn : Int
  notBefore : Int
  resource : String
  accessToken : String
deriving DecidableEq

/-- The Go zero value `tokenData{}`. -/
def zeroToken : TokenData := ⟨"", 0, 0, 0, 0, "", ""⟩

/-- Embeds `azureLogAnalyticsMetadata`. -/
structure ScalerMeta where
  tenantID : String
  clientID : String
  clientSecret : String
  workspaceID : String
  podIdentity : String
  query : String
  threshold : Int
deriving DecidableEq

/-! ### Result validation (the `statusCode == 200` block of `executeQuery`,
lines 348–409) -/

/-- One constructor per distinct `fmt.Errorf` call site of the validation
block; the payload is the datum interpolated into the message that
identifies the violation.  Note that the zero-tables, zero-columns and
zero-rows checks share a single call site (line 355), hence a single
constructor. -/
inductive ValidationError where
  | noResults
  | tooManyTables (n : Nat)
  | tooManyRows (n : Nat)
  | valueNotFloat
  | valueNegative (q : Rat)
  | valueBadType (t : String)
  | thresholdNotFloat
  | thresholdNegative (q : Rat)
  | thresholdBadType (t : String)
  | thresholdEmpty
deriving DecidableEq

/-- Outcome of a Go code fragment that can return a value, return an
error, or crash the process with a runtime panic. -/
inductive Validated (α : Type) where
  | ok (a : α)
  | err (e : ValidationError)
  | panic
deriving DecidableEq

/-- Go's `int64(f)` conversion on a `float64`: truncation toward zero. -/
def truncToInt (q : Rat) : Int :=
  if 0 ≤ q then ((q.num.toNat / q.den : Nat) : Int)
  else -(((-q).num.toNat / (-q).den : Nat) : Int)

/-- The declared-column-type test of lines 368 and 389
(`metricDataType == "real" || metricDataType == "int" || metricDataType == "long"`). -/
def typeOk (t : String) : Bool :=
  t = "real" || t = "int" || t = "long"

/-- Lines 362–381: extraction of `metricsInfo.value` from the first cell
of the single row.  `row` is `Rows[0]`; `c0` is `Columns[0]` (which
exists, because the pre-validation required a non-empty column list).
An absent or null first cell leaves the initial `value = 0`. -/
def extractValue (c0 : Column) (row : List Cell) : Except ValidationError Int :=
  match row with
  | [] => .ok 0
  | metricVal :: _ =>
    match metricVal with
    | .null => .ok 0
    | .num q =>
      if typeOk c0.type then
        if q < 0 then .error (.valueNegative q)
        else .ok (truncToInt q)
      else .error (.valueBadType c0.type)
    | .other =>
      if typeOk c0.type then .error .valueNotFloat
      else .error (.valueBadType c0.type)

/-- Lines 383–406: extraction of `metricsInfo.threshold`.  `columns` is
the full declared column list; when the row has a second cell the code
reads `Columns[1].Type` without checking that a second column was
declared, so that read is an out-of-range index — a runtime panic —
whenever only one column is present.  A row without a second cell yields
the sentinel `-1`. -/
def extractThreshold (columns : List Column) (row : List Cell) : Validated Int :=
  match row with
  | _ :: thresholdVal :: _ =>
    match columns.get? 1 with
    | none => .panic
    | some col1 =>
      match thresholdVal with
      | .null => .err .thresholdEmpty
      | .num q =>
        if typeOk col1.type then
          if q < 0 then .err (.thresholdNegative q)
          else .ok (truncToInt q)
        else .err (.thresholdBadType col1.type)
      | .other =>
        if typeOk col1.type then .err .thresholdNotFloat
        else .err (.thresholdBadType col1.type)
  | _ => .ok (-1)

/-- Lines 348–409: the full validation of a decoded 200-status response.
`configThreshold` is `s.metadata.threshold`, the initial value of
`metricsInfo.threshold` at line 350 (always overwritten before a
successful return: by the second cell's value, or by `-1`).  The order
of the shape checks mirrors the short-circuiting `if`/`else if` chain of
lines 354–360. -/
def validateResult (qd : QueryResult) (configThreshold : Int) : Validated MetricsData :=
  match qd.tables with
  | [] => .err .noResults
  | t :: ts =>
    match t.columns, t.rows with
    | [], _ => .err .noResults
    | _ :: _, [] => .err .noResults
    | c0 :: crest, row :: rrest =>
      if 0 < ts.length then .err (.tooManyTables (ts.length + 1))
      else if 0 < rrest.length then .err (.tooManyRows (rrest.length + 1))
      else
        match extractValue c0 row with
        | .error e => .err e
        | .ok v =>
          match extractThreshold (c0 :: crest) row with
          | .panic => .panic
          | .err e => .err e
          | .ok th => .ok ⟨v, th⟩

/-! ### The credential fingerprint (`getHash`, lines 565–574)

`getHash` is `base64.StdEncoding.EncodeToString(sha1(fmt.Sprintf("%s|%s",
clientID, clientSecret)))`.  SHA-1 (Go's `crypto/sha1`) and standard
base64 (`encoding/base64`) are implemented below over `Nat` bytes with
explicit reduction modulo `2^32` for the 32-bit word arithmetic. -/

/-- 2^32, the modulus of SHA-1's 32-bit word arithmetic. -/
def pow32 : Nat := 4294967296

/-- 32-bit left rotation of a word `x < 2^32`. -/
def rotl32 (n x : Nat) : Nat :=
  ((x <<< n) % pow32) ||| (x >>> (32 - n))

/-- SHA-1 padding: a `0x80` byte, zeros to 56 mod 64, then the message
bit length as 8 big-endian bytes. -/
def sha1Pad (msg : List Nat) : List Nat :=
  let len := msg.length
  let bitLen := len * 8
  let zeros := (119 - len % 64) % 64
  msg ++ [128] ++ List.replicate zeros 0 ++
    [(bitLen >>> 56) % 256, (bitLen >>> 48) % 256, (bitLen >>> 40) % 256,
     (bitLen >>> 32) % 256, (bitLen >>> 24) % 256, (bitLen >>> 16) % 256,
     (bitLen >>> 8) % 256, bitLen % 256]

/-- Big-endian grouping of bytes into 32-bit words. -/
def bytesToWords : List Nat → List Nat
  | b0 :: b1 :: b2 :: b3 :: rest =>
      (((b0 * 256 + b1) * 256 + b2) * 256 + b3) :: bytesToWords rest
  | _ => []

/-- Splits a word list into 16-word chunks (`fuel` bounds the recursion;
callers pass the list length). -/
def toChunks16 : Nat → List Nat → List (List Nat)
  | 0, _ => []
  | _, [] => []
  | fuel + 1, w :: ws => ((w :: ws).take 16) :: toChunks16 fuel ((w :: ws).drop 16)

/-- Message-schedule extension: appends `n` words, each the 1-bit left
rotation of the xor of the words 3, 8, 14 and 16 places back.  The word
list is kept most-recent-first. -/
def sha1ExtendAux : Nat → List Nat → List Nat
  | 0, rws => rws
  | n + 1, rws =>
      let w := rotl32 1 (Nat.xor (Nat.xor (rws.getD 2 0) (rws.getD 7 0))
                                 (Nat.xor (rws.getD 13 0) (rws.getD 15 0)))
      sha1ExtendAux n (w :: rws)

/-- The five 32-bit words of the SHA-1 running state. -/
structure SHA1State where
  a : Nat
  b : Nat
  c : Nat
  d : Nat
  e : Nat

/-- The round function `f` of SHA-1 (choice / parity / majority). -/
def sha1F (i b c d : Nat) : Nat :=
  if i < 20 then (b &&& c) ||| ((Nat.xor b 4294967295) &&& d)
  else if i < 40 then Nat.xor (Nat.xor b c) d
  else if i < 60 then (b &&& c) ||| (b &&& d) ||| (c &&& d)
  else Nat.xor (Nat.xor b c) d

/-- The round constants `k` of SHA-1. -/
def sha1K (i : Nat) : Nat :=
  if i < 20 then 1518500249 else if i < 40 then 1859775393
  else if i < 60 then 2400959708 else 3395469782

/-- One SHA-1 compression round on round index `iw.1` with schedule word
`iw.2`. -/
def sha1Round (st : SHA1State) (iw : Nat × Nat) : SHA1State :=
  let temp := (rotl32 5 st.a + sha1F iw.1 st.b st.c st.d + st.e + sha1K iw.1 + iw.2) % pow32
  ⟨temp, st.a, rotl32 30 st.b, st.c, st.d⟩

/-- Compression of one 16-word chunk: 80 rounds, then the feed-forward
addition of the previous state. -/
def processChunk (st : SHA1State) (chunk : List Nat) : SHA1State :=
  let ws := (sha1ExtendAux 64 chunk.reverse).reverse
  let r := ((List.range 80).zip ws).foldl sha1Round st
  ⟨(st.a + r.a) % pow32, (st.b + r.b) % pow32, (st.c + r.c) % pow32,
   (st.d + r.d) % pow32, (st.e + r.e) % pow32⟩

/-- A 32-bit word as 4 big-endian bytes. -/
def wordBytes (w : Nat) : List Nat :=
  [(w >>> 24) % 256, (w >>> 16) % 256, (w >>> 8) % 256, w % 256]

/-- SHA-1 of a byte sequence (20-byte digest). -/
def sha1Bytes (msg : List Nat) : List Nat :=
  let words := bytesToWords (sha1Pad msg)
  let h := (toChunks16 words.length words).foldl processChunk
    ⟨1732584193, 4023233417, 2562383102, 271733878, 3285377520⟩
  wordBytes h.a ++ wordBytes h.b ++ wordBytes h.c ++ wordBytes h.d ++ wordBytes h.e

/-- The base64 alphabet of `encoding/base64.StdEncoding`. -/
def b64Char (n : Nat) : Char :=
  "ABCDEFGHIJKLMNOPQRSTUVWXYZabcdefghijklmnopqrstuvwxyz0123456789+/".toList.getD n 'A'

/-- Standard base64 with `=` padding. -/
def base64Encode : List Nat → String
  | [] => ""
  | [b0] =>
      String.mk [b64Char (b0 >>> 2), b64Char ((b0 % 4) <<< 4)] ++ "=="
  | [b0, b1] =>
      String.mk [b64Char (b0 >>> 2), b64Char (((b0 % 4) <<< 4) ||| (b1 >>> 4)),
                 b64Char ((b1 % 16) <<< 2)] ++ "="
  | b0 :: b1 :: b2 :: rest =>
      String.mk [b64Char (b0 >>> 2), b64Char (((b0 % 4) <<< 4) ||| (b1 >>> 4)),
                 b64Char (((b1 % 16) <<< 2) ||| (b2 >>> 6)), b64Char (b2 % 64)]
        ++ base64Encode rest

/-- The UTF-8 bytes of a string (Go's `[]byte(s)`). -/
def stringBytes (s : String) : List Nat := s.toUTF8.data.toList.map (fun b => b.toNat)

/-- Base64-encoded SHA-1 digest of a string. -/
def sha1base64 (s : String) : String := base64Encode (sha1Bytes (stringBytes s))

/-- Lines 565–574: the TokenStore key of a credential pair.  The bytes
hashed are `fmt.Sprintf("%s|%s", clientID, clientSecret)`. -/
def getHash (clientID clientSecret : String) : String :=
  sha1base64 (clientID ++ "|" ++ clientSecret)

/-! ### Token cache and token lifecycle (lines 277–305, 414–434, 535–563)

The process-wide `tokenCache` map is embedded as an association list
passed explicitly; `List.lookup` returns the most recently inserted
binding for a key, which is observationally the Go map after the same
sequence of writes.  The identity-provider call
(`getAuthorizationToken`, an HTTP exchange) is an oracle parameter of
type `Except AuthError TokenData`, and `time.Now().Unix()` is the
explicit parameter `now`.  `time.Sleep` is surfaced as the number of
seconds slept. -/

/-- Error cases of the token-acquisition path: the identity-provider
call failed (any of the failure returns of `getAuthorizationToken`), or
the clock-skew guard of line 429 fired, carrying `NotBefore - now`. -/
inductive AuthError where
  | providerFailure
  | skewTooLarge (delta : Int)
deriving DecidableEq

/-- The process-wide `tokenCache.m` map, as explicit state. -/
abbrev TokenCache := List (String × TokenData)

/-- Lines 535–550: lookup by credential fingerprint; a hit with an empty
`AccessToken` is treated as a miss (the Go code returns an error then). -/
def getTokenFromCache (cache : TokenCache) (clientID clientSecret : String) :
    Option TokenData :=
  match List.lookup (getHash clientID clientSecret) cache with
  | some val => if val.accessToken ≠ "" then some val else none
  | none => none

/-- Lines 552–563: store a token under the credential fingerprint
(map overwrite). -/
def setTokenInCache (cache : TokenCache) (clientID clientSecret : String)
    (tokenInfo : TokenData) : TokenCache :=
  (getHash clientID clientSecret, tokenInfo) :: cache

/-- Lines 414–434: obtain a fresh token from the provider and apply the
not-before handling.  Returns the result together with the number of
seconds slept.  Note the inner guard is `now < NotBefore + 10` (line
424), not a bound on the wait `NotBefore - now`. -/
def refreshAccessToken (now : Int) (provider : Except AuthError TokenData) :
    Except AuthError TokenData × Int :=
  match provider with
  | .error e => (.error e, 0)
  | .ok tokenInfo =>
    if now < tokenInfo.notBefore then
      if now < tokenInfo.notBefore + 10 then
        (.ok tokenInfo, tokenInfo.notBefore - now + 1)
      else
        (.error (.skewTooLarge (tokenInfo.notBefore - now)), 0)
    else (.ok tokenInfo, 0)

/-- The repeated lookup dispatch of lines 282–286: service-principal
credentials, or the pod-identity label used as both fields. -/
def getTokenByIdentity (meta : ScalerMeta) (cache : TokenCache) : Option TokenData :=
  if meta.podIdentity = "" then getTokenFromCache cache meta.clientID meta.clientSecret
  else getTokenFromCache cache meta.podIdentity meta.podIdentity

/-- The repeated store dispatch of lines 294–300 (and 316–322). -/
def setTokenByIdentity (meta : ScalerMeta) (cache : TokenCache) (tok : TokenData) :
    TokenCache :=
  if meta.podIdentity = "" then setTokenInCache cache meta.clientID meta.clientSecret tok
  else setTokenInCache cache meta.podIdentity meta.podIdentity tok

/-- Lines 277–305 (`getAccessToken`): the get-or-refresh operation.
Returns the token (or auth error), the updated cache, and the number of
identity-provider calls made (0 or 1; `refreshAccessToken` calls
`getAuthorizationToken` unconditionally).  The cache-miss error is
discarded (`tokenInfo, _ = ...`), leaving the zero token, whose
`ExpiresOn = 0` then fails the freshness test `now + 30 > ExpiresOn`. -/
def getAccessToken (meta : ScalerMeta) (now : Int) (cache : TokenCache)
    (provider : Except AuthError TokenData) :
    Except AuthError TokenData × TokenCache × Nat :=
  let tokenInfo := (getTokenByIdentity meta cache).getD zeroToken
  if now + 30 > tokenInfo.expiresOn then
    match refreshAccessToken now provider with
    | (.error e, _) => (.error e, cache, 1)
    | (.ok newTokenInfo, _) =>
        (.ok newTokenInfo, setTokenByIdentity meta cache newTokenInfo, 1)
  else (.ok tokenInfo, cache, 0)

/-! ### HTTP transport and query execution (lines 307–412, 513–533)

`http.Client.Do` returns `(*http.Response, error)`; on a transport-level
failure the response is nil.  Line 521 reads `resp.StatusCode` inside
the error branch, which dereferences that nil pointer.  JSON decoding of
a response body (`json.NewDecoder(...).Decode(&queryData)`, line 343) is
an oracle function `String → Option QueryResult` supplied by the
environment. -/

/-- The pair returned by `httpClient.Do(request)`: a non-nil error with
the (possibly nil) response, or a successful exchange whose body read
may itself fail (`ioutil.ReadAll`, line 527). -/
inductive DoResult where
  | doError (resp : Option (Int × String))
  | doOk (statusCode : Int) (body : String) (readFails : Bool)
deriving DecidableEq

/-- What a call to `runHTTP` does: crash the goroutine with a nil-pointer
dereference, or return `(body, statusCode, err)` — `body = none` models
a nil byte slice, and `errored` models a non-nil error. -/
inductive RunHTTPResult where
  | panicked
  | res (body : Option String) (statusCode : Int) (errored : Bool)
deriving DecidableEq

/-- Lines 513–533 (`runHTTP`).  In the `err != nil` branch the code
returns `nil, resp.StatusCode, ...`: if `Do` produced no response
(`resp = none`, the ordinary transport-error case) that read panics. -/
def runHTTP (d : DoResult) : RunHTTPResult :=
  match d with
  | .doError none => .panicked
  | .doError (some (status, _)) => .res none status true
  | .doOk status body readFails =>
      if readFails then .res none status true
      else .res (some body) status false

/-- Substring containment, `strings.Contains` (line 313). -/
def containsSub (needle hay : String) : Bool :=
  hay.toList.tails.any (fun t => needle.toList.isPrefixOf t)

/-- Errors surfaced by the query-execution pipeline, one constructor per
`fmt.Errorf` family: a bubbled token-acquisition error, the non-200/0
status error (line 332), a bubbled transport/read error (line 336), the
empty-body error (line 340), the JSON-decode error (line 345), a
validation error from the 200 branch, and the fallthrough error
(line 411). -/
inductive ScalerError where
  | authError (e : AuthError)
  | queryHTTPError (status : Int) (body : String)
  | transportError
  | emptyBody (status : Int)
  | decodeError (status : Int)
  | validation (e : ValidationError)
  | unknownError (status : Int)
deriving DecidableEq

/-- Outcome of `executeQuery`/`getMetricData`: a metric sample, an
error, or a runtime panic reached inside the call. -/
inductive ExecOutcome where
  | ok (m : MetricsData)
  | err (e : ScalerError)
  | panic
deriving DecidableEq

/-- Lines 331–411: the processing of the (possibly retried) REST
response — status check, error check, empty-body check, JSON decode,
then validation of a 200 response. -/
def postProcess (decode : String → Option QueryResult) (meta : ScalerMeta)
    (body : Option String) (status : Int) (errored : Bool) : ExecOutcome :=
  let bodyStr := body.getD ""
  if status ≠ 200 ∧ status ≠ 0 then .err (.queryHTTPError status bodyStr)
  else if errored then .err .transportError
  else if bodyStr.length = 0 then .err (.emptyBody status)
  else
    match decode bodyStr with
    | none => .err (.decodeError status)
    | some queryData =>
      if status = 200 then
        match validateResult queryData meta.threshold with
        | .ok m => .ok m
        | .err e => .err (.validation e)
        | .panic => .panic
      else .err (.unknownError status)

/-- The environment of one `executeQuery` call: the transport outcome of
the first REST attempt, the identity-provider response consumed if a
forced refresh happens, the transport outcome of the retried attempt
(issued with the refreshed token), and the JSON decoder. -/
structure QueryEnv where
  rest1 : RunHTTPResult
  provider : Except AuthError TokenData
  rest2 : RunHTTPResult
  decode : String → Option QueryResult

/-- Result of `executeQuery`, with the REST attempts and forced
refreshes counted. -/
structure ExecResult where
  outcome : ExecOutcome
  cache : TokenCache
  restCalls : Nat
  refreshCalls : Nat

/-- Lines 307–412 (`executeQuery`).  The expired-token condition of line
313 (`statusCode == 403 || (len(body) > 0 && strings.Contains(body,
"TokenExpired"))`) triggers one forced `refreshAccessToken`; the token
returned by it — the zero token if the refresh failed, since line 314
shadows `err` and lines 316–322 store unconditionally — is cached, and
on refresh success the REST call is retried exactly once.  The retried
response is then handed to the line-331 checks with no further
expired-token test. -/
def executeQuery (meta : ScalerMeta) (tokenInfo : TokenData) (now : Int)
    (env : QueryEnv) (cache : TokenCache) : ExecResult :=
  match env.rest1 with
  | .panicked => ⟨.panic, cache, 1, 0⟩
  | .res body1 status1 err1 =>
    let bodyStr1 := body1.getD ""
    if status1 = 403 ∨ (bodyStr1.length > 0 ∧ containsSub "TokenExpired" bodyStr1 = true) then
      match refreshAccessToken now env.provider with
      | (.error e, _) =>
          let cache1 := setTokenByIdentity meta cache zeroToken
          ⟨.err (.authError e), cache1, 1, 1⟩
      | (.ok newTokenInfo, _) =>
          let cache1 := setTokenByIdentity meta cache newTokenInfo
          match env.rest2 with
          | .panicked => ⟨.panic, cache1, 2, 1⟩
          | .res body2 status2 err2 =>
              ⟨postProcess env.decode meta body2 status2 err2, cache1, 2, 1⟩
    else ⟨postProcess env.decode meta body1 status1 err1, cache, 1, 0⟩

/-- Result of the full fetch `getMetricData`, with the identity-provider
calls of the initial acquisition and of the in-query forced refresh
counted separately. -/
structure PipelineResult where
  outcome : ExecOutcome
  cache : TokenCache
  restCalls : Nat
  acquireProviderCalls : Nat
  queryRefreshCalls : Nat

/-- Lines 261–275 (`getMetricData`): acquire a token via
`getAccessToken` (provider oracle `provider1`), then run
`executeQuery`. -/
def getMetricData (meta : ScalerMeta) (now : Int) (cache : TokenCache)
    (provider1 : Except AuthError TokenData) (env : QueryEnv) : PipelineResult :=
  match getAccessToken meta now cache provider1 with
  | (.error e, cache1, n) => ⟨.err (.authError e), cache1, 0, n, 0⟩
  | (.ok tokenInfo, cache1, n) =>
      let r := executeQuery meta tokenInfo now env cache1
      ⟨r.outcome, r.cache, r.restCalls, n, r.refreshCalls⟩

/-! ### The scaler facade (lines 189–259: `IsActive`, `GetMetrics`,
`updateCache`)

The per-instance `sessionCache` is explicit state; the successive
results of `getMetricData` are an oracle indexed by a fetch counter. -/

/-- Embeds `sessionCache` (`metricValue int64; metricThreshold int64`),
initialized to `{-1, -1}` by `NewAzureLogAnalyticsScaler`. -/
structure SessionCache where
  metricValue : Int
  metricThreshold : Int
deriving DecidableEq

/-- A facade's mutable state: its session cache plus the count of
`getMetricData` fetches performed so far. -/
structure FacadeState where
  cache : SessionCache
  fetchCount : Nat
deriving DecidableEq

/-- Lines 241–259 (`updateCache`): fetch only when `metricValue < 0`;
on success store the value, and store the sample's threshold when it is
positive, the configured default otherwise. -/
def updateCache (meta : ScalerMeta) (fetch : Nat → Except ScalerError MetricsData)
    (st : FacadeState) : Option ScalerError × FacadeState :=
  if st.cache.metricValue < 0 then
    match fetch st.fetchCount with
    | .error e => (some e, { st with fetchCount := st.fetchCount + 1 })
    | .ok receivedMetric =>
        (none,
         { cache := ⟨receivedMetric.value,
                     if receivedMetric.threshold > 0 then receivedMetric.threshold
                     else meta.threshold⟩,
           fetchCount := st.fetchCount + 1 })
  else (none, st)

/-- Lines 189–197 (`IsActive`): `updateCache`, then
`metricValue > 0`. -/
def IsActive (meta : ScalerMeta) (fetch : Nat → Except ScalerError MetricsData)
    (st : FacadeState) : Except ScalerError Bool × FacadeState :=
  match updateCache meta fetch st with
  | (some e, st1) => (.error e, st1)
  | (none, st1) => (.ok (st1.cache.metricValue > 0), st1)

/-- Lines 221–235 (`GetMetrics`): calls `getMetricData` directly,
bypassing and never touching the session cache. -/
def GetMetrics (fetch : Nat → Except ScalerError MetricsData)
    (st : FacadeState) : Except ScalerError Int × FacadeState :=
  match fetch st.fetchCount with
  | .error e => (.error e, { st with fetchCount := st.fetchCount + 1 })
  | .ok receivedMetric => (.ok receivedMetric.value, { st with fetchCount := st.fetchCount + 1 })

/-- A well-formed JSON body of the query endpoint whose table is named
`TokenExpired` (braces written as `\x7b`/`\x7d`): it contains the
literal expired-token marker yet decodes to a valid single-column,
single-row table `[[1]]`. -/
def tokenExpiredBody : String :=
  "\x7b\"tables\":[\x7b\"name\":\"TokenExpired\",\"columns\":[\x7b\"name\":\"v\",\"type\":\"real\"\x7d],\"rows\":[[1]]\x7d]\x7d"

/-- The decoded form of `tokenExpiredBody`. -/
def tokenExpiredTable : QueryResult :=
  ⟨[⟨"TokenExpired", [⟨"v", "real"⟩], [[.num 1]]⟩]⟩

/-- The rational 5/2 = 2.5, written with explicit numerator and
denominator so that kernel reduction is direct. -/
def fiveHalves : Rat := ⟨5, 2, by decide, by decide⟩

/-- The rational 201/2 = 100.5, written with explicit numerator and
denominator so that kernel reduction is direct. -/
def twoHundredOneHalves : Rat := ⟨201, 2, by decide, by decide⟩

/-! ### Shared lemmas and sanity checks -/

set_option maxRecDepth 100000 in
/-- Known-answer test for the SHA-1/base64 implementation:
`base64(sha1("abc"))`. -/
theorem sha1base64_known_answer :
    sha1base64 "abc" = "qZk+NkcGgWq6PiVxeFDCbJzQ2J0=" := by decide

/-- The happy-path behaviour of the validation block: one row
`[12.0, 100.0]` with column types `[real, real]` yields the sample
`{value 12, threshold 100}`. -/
theorem validateResult_happy_path :
    validateResult ⟨[⟨"T", [⟨"v", "real"⟩, ⟨"t", "real"⟩], [[.num 12, .num 100]]⟩]⟩ 7
      = .ok ⟨12, 100⟩ := by decide

/-- When the identity provider answers successfully, `refreshAccessToken`
always returns that token: the skew-error branch of line 429 requires
`notBefore + 10 ≤ now < notBefore`, which is unsatisfiable, so the only
effect of a future `notBefore` is the sleep. -/
theorem refreshAccessToken_provider_ok (now : Int) (t : TokenData) :
    refreshAccessToken now (.ok t)
      = (.ok t, if now < t.notBefore then t.notBefore - now + 1 else 0) := by
  by_cases h : now < t.notBefore
  · simp only [refreshAccessToken, if_pos h,
      if_pos (show now < t.notBefore + 10 by omega)]
  · simp only [refreshAccessToken, if_neg h]

/-- Unfolding of `validateResult` on a well-shaped single-table,
single-row result. -/
theorem validateResult_single (nm : String) (c0 : Column) (crest : List Column)
    (row : List Cell) (d : Int) :
    validateResult ⟨[⟨nm, c0 :: crest, [row]⟩]⟩ d =
      (match extractValue c0 row with
      | .error e => .err e
      | .ok v =>
        match extractThreshold (c0 :: crest) row with
        | .panic => .panic
        | .err e => .err e
        | .ok th => .ok ⟨v, th⟩) := by
  simp [validateResult]

/-- A successfully extracted metric value is non-negative: it is either
the untouched initial `0` or the truncation of a float that passed the
negativity check. -/
theorem extractValue_ok_nonneg (c0 : Column) (row : List Cell) (v : Int)
    (h : extractValue c0 row = .ok v) : 0 ≤ v := by
  match row with
  | [] =>
    simp only [extractValue, Except.ok.injEq] at h
    omega
  | .null :: rest =>
    simp only [extractValue, Except.ok.injEq] at h
    omega
  | .num q :: rest =>
    simp only [extractValue] at h
    split at h
    · split at h
      · simp at h
      · next hq =>
        simp only [Except.ok.injEq] at h
        subst h
        unfold truncToInt
        rw [if_pos (not_lt.mp hq)]
        exact Int.ofNat_nonneg _
    · simp at h
  | .other :: rest =>
    simp only [extractValue] at h
    split at h <;> simp at h

/-- A sample returned by the validation block has a non-negative
value. -/
theorem validateResult_ok_value_nonneg (qd : QueryResult) (d : Int) (m : MetricsData)
    (h : validateResult qd d = .ok m) : 0 ≤ m.value := by
  obtain ⟨tables⟩ := qd
  match tables with
  | [] => simp [validateResult] at h
  | ⟨nm, [], rows⟩ :: ts => simp [validateResult] at h
  | ⟨nm, c0 :: crest, []⟩ :: ts => simp [validateResult] at h
  | ⟨nm, c0 :: crest, row :: rrest⟩ :: ts =>
    simp only [validateResult] at h
    split at h
    · simp at h
    · split at h
      · simp at h
      · split at h
        · simp at h
        · next v heq =>
          split at h
          · simp at h
          · simp at h
          · simp only [Validated.ok.injEq] at h
            subst h
            exact extractValue_ok_nonneg c0 row v heq

/-! ### Claim theorems -/

/-- Claim C1 (code_bug evidence).  The claim says a freshly obtained
token whose wait `notBefore - now` exceeds 10 seconds makes the refresh
fail with an auth error instead of blocking.  The code's guard at line
424 is `now < notBefore + 10`, which is implied by `now < notBefore`, so
for EVERY future `notBefore` — however distant — `refreshAccessToken`
sleeps `notBefore − now + 1` seconds and returns the token; the
skew-too-large error of line 429 is unreachable. -/
theorem refreshAccessToken_sleeps_on_large_skew (now : Int) (t : TokenData)
    (h : 10 < t.notBefore - now) :
    refreshAccessToken now (.ok t) = (.ok t, t.notBefore - now + 1) := by
  rw [refreshAccessToken_provider_ok, if_pos (by omega)]

/-- Witness for C1: at `now = 0` and `notBefore = 100` (a 100-second
wait), the code sleeps 101 seconds and hands the token back. -/
theorem refreshAccessToken_sleeps_on_large_skew_witness :
    (10 : Int) < (⟨"Bearer", 3600, 3600, 7200, 100, "r", "tok"⟩ : TokenData).notBefore - 0 ∧
      refreshAccessToken 0 (.ok ⟨"Bearer", 3600, 3600, 7200, 100, "r", "tok"⟩)
        = (.ok ⟨"Bearer", 3600, 3600, 7200, 100, "r", "tok"⟩, 101) :=
  ⟨by decide,
   refreshAccessToken_sleeps_on_large_skew 0 ⟨"Bearer", 3600, 3600, 7200, 100, "r", "tok"⟩
     (by decide)⟩

/-- Claim C8 (code_bug evidence).  The claim says a transport-level
failure (nil response with a non-nil error from `http.Client.Do`)
surfaces as an error result.  Line 521 reads `resp.StatusCode` in
exactly that branch, so the goroutine panics with a nil-pointer
dereference instead of reaching any failure return. -/
theorem runHTTP_nil_response_panics : runHTTP (.doError none) = .panicked := rfl

/-- Claim C10 (code_bug evidence).  A 200-status result that passes
pre-validation with one declared column but whose single row carries two
cells makes the validator read `Columns[1].Type` (line 384) out of
range: an index-out-of-range panic, not an error return. -/
theorem validateResult_one_column_two_cells_panics :
    validateResult ⟨[⟨"PrimaryResult", [⟨"value", "real"⟩], [[.num 1, .num 2]]⟩]⟩ 100
      = .panic := by decide

/-- Claim C7, counterexample.  `getHash` hashes
`clientID + "|" + clientSecret`, so the distinct credential pairs
`("a", "b|c")` and `("a|b", "c")` — both encoding to `"a|b|c"` — receive
the same TokenStore key: injectivity on distinct pairs fails. -/
theorem getHash_distinct_pairs_collide :
    (("a", "b|c") : String × String) ≠ ("a|b", "c") ∧
      getHash "a" "b|c" = getHash "a|b" "c" :=
  ⟨by decide, congrArg sha1base64 (by decide)⟩

/-- Claim C7, amended.  The fingerprint is deterministic, and depends
only on the joined string `clientID|clientSecret`: any two pairs with
the same joined encoding (identical pairs in particular) receive the
same key. -/
theorem getHash_deterministic_on_joined_string (a b c d : String)
    (h : a ++ "|" ++ b = c ++ "|" ++ d) : getHash a b = getHash c d :=
  congrArg sha1base64 h

/-- Witness for the amended C7: determinism at a concrete pair. -/
theorem getHash_deterministic_on_joined_string_witness :
    "id" ++ "|" ++ "secret" = "id" ++ "|" ++ "secret" ∧
      getHash "id" "secret" = getHash "id" "secret" :=
  ⟨rfl, getHash_deterministic_on_joined_string "id" "secret" "id" "secret" rfl⟩

/-- Claim C6, counterexample.  The zero-tables violation and the
zero-rows violation both take the line-355 branch and produce the same
`"there is no results after running your query"` error: the four shape
violations do not produce four mutually distinguishable errors. -/
theorem shape_violations_share_an_error :
    validateResult ⟨[]⟩ 0 = .err .noResults ∧
      validateResult ⟨[⟨"T", [⟨"c", "real"⟩], []⟩]⟩ 0 = .err .noResults := by
  exact ⟨rfl, rfl⟩

/-- Claim C6, amended.  Each of the four shape violations is rejected:
zero tables and zero rows via the shared no-results error, more than one
table (with a well-formed first table) via a dedicated too-many-tables
error, and more than one row via a dedicated too-many-rows error; the
no-results, too-many-tables and too-many-rows errors are pairwise
distinct, but zero tables and zero rows are not distinguishable from
each other. -/
theorem shape_validation_rejects_all_four (d : Int) :
    (validateResult ⟨[]⟩ d = .err .noResults) ∧
    (∀ (t : QueryTable) (ts : List QueryTable),
        t.columns ≠ [] → t.rows ≠ [] → ts ≠ [] →
        validateResult ⟨t :: ts⟩ d = .err (.tooManyTables (ts.length + 1))) ∧
    (∀ t : QueryTable, t.columns ≠ [] → t.rows = [] →
        validateResult ⟨[t]⟩ d = .err .noResults) ∧
    (∀ (t : QueryTable) (row : List Cell) (rrest : List (List Cell)),
        t.columns ≠ [] → t.rows = row :: rrest → rrest ≠ [] →
        validateResult ⟨[t]⟩ d = .err (.tooManyRows (rrest.length + 1))) ∧
    (∀ n k : Nat, ValidationError.noResults ≠ .tooManyTables n ∧
        ValidationError.noResults ≠ .tooManyRows k ∧
        ValidationError.tooManyTables n ≠ .tooManyRows k) := by
  refine ⟨rfl, ?_, ?_, ?_, by intro n k; exact ⟨by simp, by simp, by simp⟩⟩
  · rintro ⟨nm, cols, rows⟩ ts hc hr hts
    match cols, rows with
    | c0 :: crest, row :: rrest =>
      simp only [validateResult]
      rw [if_pos (List.length_pos.mpr hts)]
  · rintro ⟨nm, cols, rows⟩ hc hr
    subst hr
    match cols with
    | c0 :: crest => simp [validateResult]
  · rintro ⟨nm, cols, rows⟩ row rrest hc hr hrr
    subst hr
    match cols with
    | c0 :: crest =>
      simp only [validateResult]
      rw [if_neg (by simp), if_pos (List.length_pos.mpr hrr)]

/-- Witness for the amended C6: the four violations at concrete inputs. -/
theorem shape_validation_rejects_all_four_witness :
    validateResult ⟨[]⟩ 0 = .err .noResults ∧
    validateResult ⟨[⟨"A", [⟨"c", "real"⟩], [[Cell.num 1]]⟩, ⟨"B", [⟨"c", "real"⟩], [[Cell.num 2]]⟩]⟩ 0
        = .err (.tooManyTables 2) ∧
    validateResult ⟨[⟨"A", [⟨"c", "real"⟩], []⟩]⟩ 0 = .err .noResults ∧
    validateResult ⟨[⟨"A", [⟨"c", "real"⟩], [[Cell.num 1], [Cell.num 2]]⟩]⟩ 0
        = .err (.tooManyRows 2) :=
  ⟨(shape_validation_rejects_all_four 0).1,
   (shape_validation_rejects_all_four 0).2.1
     ⟨"A", [⟨"c", "real"⟩], [[Cell.num 1]]⟩ [⟨"B", [⟨"c", "real"⟩], [[Cell.num 2]]⟩]
     (by decide) (by decide) (by decide),
   (shape_validation_rejects_all_four 0).2.2.1
     ⟨"A", [⟨"c", "real"⟩], []⟩ (by decide) rfl,
   (shape_validation_rejects_all_four 0).2.2.2.1
     ⟨"A", [⟨"c", "real"⟩], [[Cell.num 1], [Cell.num 2]]⟩ [Cell.num 1] [[Cell.num 2]]
     (by decide) rfl (by decide)⟩

/-- Claim C3.  With service-principal credentials: (a) a cached token
with a non-empty access token is returned without a provider call
exactly while `now + 30 ≤ expiresOn`; (b) when the cached token (the
zero token if absent) fails that test, the provider is invoked exactly
once and the fresh token is stored under the credential fingerprint;
(c) the stored token is then served from the cache with no further
provider call at any later instant `now2` at which it is still fresh. -/
theorem getAccessToken_cache_semantics (meta : ScalerMeta) (now now2 : Int)
    (cache : TokenCache) (provider provider2 : Except AuthError TokenData)
    (hpod : meta.podIdentity = "") :
    (∀ tok : TokenData,
        getTokenFromCache cache meta.clientID meta.clientSecret = some tok →
        now + 30 ≤ tok.expiresOn →
        getAccessToken meta now cache provider = (.ok tok, cache, 0)) ∧
    (∀ newTok : TokenData,
        ((getTokenFromCache cache meta.clientID meta.clientSecret).getD zeroToken).expiresOn
            < now + 30 →
        provider = .ok newTok → newTok.notBefore ≤ now →
        getAccessToken meta now cache provider
          = (.ok newTok, (getHash meta.clientID meta.clientSecret, newTok) :: cache, 1)) ∧
    (∀ newTok : TokenData, newTok.accessToken ≠ "" → now2 + 30 ≤ newTok.expiresOn →
        getAccessToken meta now2 ((getHash meta.clientID meta.clientSecret, newTok) :: cache)
            provider2
          = (.ok newTok, (getHash meta.clientID meta.clientSecret, newTok) :: cache, 0)) := by
  refine ⟨?_, ?_, ?_⟩
  · intro tok hlook hfresh
    simp only [getAccessToken, getTokenByIdentity]
    rw [if_pos hpod, hlook]
    simp only [Option.getD_some]
    rw [if_neg (by omega)]
  · intro newTok hstale hprov hnb
    simp only [getAccessToken, getTokenByIdentity]
    rw [if_pos hpod, if_pos hstale, hprov, refreshAccessToken_provider_ok,
      if_neg (by omega)]
    show (Except.ok newTok, setTokenByIdentity meta cache newTok, 1) = _
    simp only [setTokenByIdentity]
    rw [if_pos hpod]
    rfl
  · intro newTok hne hfresh
    simp only [getAccessToken, getTokenByIdentity, getTokenFromCache]
    rw [if_pos hpod]
    simp only [List.lookup, beq_self_eq_true]
    rw [if_pos hne]
    simp only [Option.getD_some]
    rw [if_neg (by omega)]

set_option maxRecDepth 1000000 in
/-- Witness for C3, at the spec's boundary values (`now = 0`): a cached
token with `expiresOn = 31` is reused with no provider call; one with
`expiresOn = 29` triggers exactly one provider call and the new token is
stored; the stored token is then served from the cache with no provider
call. -/
theorem getAccessToken_cache_semantics_witness :
    (getAccessToken ⟨"tenant", "id", "sec", "ws", "", "q", 5⟩ 0
        [(getHash "id" "sec", ⟨"Bearer", 3600, 3600, 31, 0, "r", "tok31"⟩)]
        (.ok ⟨"Bearer", 3600, 3600, 1000, 0, "r", "newtok"⟩)
      = (.ok ⟨"Bearer", 3600, 3600, 31, 0, "r", "tok31"⟩,
         [(getHash "id" "sec", ⟨"Bearer", 3600, 3600, 31, 0, "r", "tok31"⟩)], 0)) ∧
    (getAccessToken ⟨"tenant", "id", "sec", "ws", "", "q", 5⟩ 0
        [(getHash "id" "sec", ⟨"Bearer", 3600, 3600, 29, 0, "r", "tok29"⟩)]
        (.ok ⟨"Bearer", 3600, 3600, 1000, 0, "r", "newtok"⟩)
      = (.ok ⟨"Bearer", 3600, 3600, 1000, 0, "r", "newtok"⟩,
         (getHash "id" "sec", ⟨"Bearer", 3600, 3600, 1000, 0, "r", "newtok"⟩)
           :: [(getHash "id" "sec", ⟨"Bearer", 3600, 3600, 29, 0, "r", "tok29"⟩)], 1)) ∧
    (getAccessToken ⟨"tenant", "id", "sec", "ws", "", "q", 5⟩ 0
        ((getHash "id" "sec", ⟨"Bearer", 3600, 3600, 1000, 0, "r", "newtok"⟩) :: [])
        (.ok ⟨"Bearer", 3600, 3600, 29, 0, "r", "tok29"⟩)
      = (.ok ⟨"Bearer", 3600, 3600, 1000, 0, "r", "newtok"⟩,
         (getHash "id" "sec", ⟨"Bearer", 3600, 3600, 1000, 0, "r", "newtok"⟩) :: [], 0)) :=
  ⟨(getAccessToken_cache_semantics ⟨"tenant", "id", "sec", "ws", "", "q", 5⟩ 0 0
      [(getHash "id" "sec", ⟨"Bearer", 3600, 3600, 31, 0, "r", "tok31"⟩)]
      (.ok ⟨"Bearer", 3600, 3600, 1000, 0, "r", "newtok"⟩)
      (.ok ⟨"Bearer", 3600, 3600, 1000, 0, "r", "newtok"⟩) rfl).1
      ⟨"Bearer", 3600, 3600, 31, 0, "r", "tok31"⟩ (by decide) (by decide),
   (getAccessToken_cache_semantics ⟨"tenant", "id", "sec", "ws", "", "q", 5⟩ 0 0
      [(getHash "id" "sec", ⟨"Bearer", 3600, 3600, 29, 0, "r", "tok29"⟩)]
      (.ok ⟨"Bearer", 3600, 3600, 1000, 0, "r", "newtok"⟩)
      (.ok ⟨"Bearer", 3600, 3600, 1000, 0, "r", "newtok"⟩) rfl).2.1
      ⟨"Bearer", 3600, 3600, 1000, 0, "r", "newtok"⟩ (by decide) rfl (by decide),
   (getAccessToken_cache_semantics ⟨"tenant", "id", "sec", "ws", "", "q", 5⟩ 0 0 []
      (.ok ⟨"Bearer", 3600, 3600, 29, 0, "r", "tok29"⟩)
      (.ok ⟨"Bearer", 3600, 3600, 29, 0, "r", "tok29"⟩) rfl).2.2
      ⟨"Bearer", 3600, 3600, 1000, 0, "r", "newtok"⟩ (by decide) (by decide)⟩

/-- Claim C4.  On a successfully decoded single-table, single-row
result: a null first cell yields `value = 0`; a non-null first cell lets
validation succeed only as a float of declared type real/int/long that
is non-negative, whose truncation toward zero becomes the value; and a
negative float of accepted type is rejected with the dedicated error
(never clamped). -/
theorem value_column_rules (nm : String) (c0 : Column) (crest : List Column)
    (cell : Cell) (rest : List Cell) (d : Int) :
    (∀ m : MetricsData, cell = .null →
        validateResult ⟨[⟨nm, c0 :: crest, [cell :: rest]⟩]⟩ d = .ok m → m.value = 0) ∧
    (∀ m : MetricsData, cell ≠ .null →
        validateResult ⟨[⟨nm, c0 :: crest, [cell :: rest]⟩]⟩ d = .ok m →
        ∃ q : Rat, cell = .num q ∧
          (c0.type = "real" ∨ c0.type = "int" ∨ c0.type = "long") ∧
          0 ≤ q ∧ m.value = truncToInt q) ∧
    (∀ q : Rat, cell = .num q → q < 0 → typeOk c0.type = true →
        validateResult ⟨[⟨nm, c0 :: crest, [cell :: rest]⟩]⟩ d
          = .err (.valueNegative q)) := by
  refine ⟨?_, ?_, ?_⟩
  · intro m hnull h
    subst hnull
    rw [validateResult_single] at h
    simp only [extractValue] at h
    split at h
    · simp at h
    · simp at h
    · next th heq =>
      simp only [Validated.ok.injEq] at h
      subst h
      rfl
  · intro m hnn h
    rw [validateResult_single] at h
    cases cell with
    | null => exact absurd rfl hnn
    | num q =>
      refine ⟨q, rfl, ?_⟩
      simp only [extractValue] at h
      split at h
      · simp at h
      · next v hev =>
        split at h
        · simp at h
        · simp at h
        · next th heq =>
          simp only [Validated.ok.injEq] at h
          subst h
          split at hev
          · next ht =>
            split at hev
            · simp at hev
            · next hq =>
              simp only [Except.ok.injEq] at hev
              exact ⟨by simpa [typeOk, or_assoc] using ht, not_lt.mp hq, hev.symm⟩
          · simp at hev
    | other =>
      simp only [extractValue] at h
      split at h
      · simp at h
      · next v hev => split at hev <;> simp at hev
  · intro q hq hneg ht
    subst hq
    rw [validateResult_single]
    simp only [extractValue, ht, if_true, if_pos hneg]

/-- Witness for C4: the null case, the successful truncating case
(`2.5` with declared type `real` truncates to `2`), and the rejected
negative case. -/
theorem value_column_rules_witness :
    ((Cell.null = Cell.null) ∧
      validateResult ⟨[⟨"T", [⟨"v", "real"⟩], [[Cell.null]]⟩]⟩ 9 = .ok ⟨0, -1⟩) ∧
    (validateResult ⟨[⟨"T", [⟨"v", "real"⟩], [[Cell.num fiveHalves]]⟩]⟩ 9 = .ok ⟨2, -1⟩ ∧
      ∃ q : Rat, Cell.num fiveHalves = .num q ∧
        ((⟨"v", "real"⟩ : Column).type = "real" ∨ (⟨"v", "real"⟩ : Column).type = "int" ∨
          (⟨"v", "real"⟩ : Column).type = "long") ∧
        0 ≤ q ∧ (⟨2, -1⟩ : MetricsData).value = truncToInt q) ∧
    (validateResult ⟨[⟨"T", [⟨"v", "real"⟩], [[Cell.num (-1)]]⟩]⟩ 9
        = .err (.valueNegative (-1))) :=
  ⟨⟨rfl, by decide⟩,
   ⟨by decide,
    (value_column_rules "T" ⟨"v", "real"⟩ [] (Cell.num fiveHalves) [] 9).2.1 ⟨2, -1⟩
      (by decide) (by decide)⟩,
   (value_column_rules "T" ⟨"v", "real"⟩ [] (Cell.num (-1)) [] 9).2.2 (-1)
      rfl (by decide) (by decide)⟩

/-- Claim C5.  On a successfully decoded single-table, single-row result
with at least two declared columns: a present non-null second cell lets
validation succeed only as a non-negative float of accepted declared
type, whose truncation becomes the threshold; a present-but-null second
cell is rejected with the dedicated empty-threshold error (once the
value column validated); and a row with no second cell yields the
sentinel threshold `-1`. -/
theorem threshold_column_rules (nm : String) (c0 c1 : Column) (cs : List Column)
    (cell0 : Cell) (d : Int) :
    (∀ (cell1 : Cell) (rest : List Cell) (m : MetricsData),
        validateResult ⟨[⟨nm, c0 :: c1 :: cs, [cell0 :: cell1 :: rest]⟩]⟩ d = .ok m →
        ∃ q : Rat, cell1 = .num q ∧
          (c1.type = "real" ∨ c1.type = "int" ∨ c1.type = "long") ∧
          0 ≤ q ∧ m.threshold = truncToInt q) ∧
    (∀ (cell1 : Cell) (rest : List Cell) (v : Int),
        extractValue c0 (cell0 :: cell1 :: rest) = .ok v → cell1 = .null →
        validateResult ⟨[⟨nm, c0 :: c1 :: cs, [cell0 :: cell1 :: rest]⟩]⟩ d
          = .err .thresholdEmpty) ∧
    (∀ v : Int, extractValue c0 [cell0] = .ok v →
        validateResult ⟨[⟨nm, c0 :: c1 :: cs, [[cell0]]⟩]⟩ d = .ok ⟨v, -1⟩) := by
  refine ⟨?_, ?_, ?_⟩
  · intro cell1 rest m h
    rw [validateResult_single] at h
    split at h
    · simp at h
    · next v hev =>
      cases cell1 with
      | null =>
        rw [show extractThreshold (c0 :: c1 :: cs) (cell0 :: Cell.null :: rest)
              = Validated.err .thresholdEmpty from rfl] at h
        simp at h
      | num q =>
        refine ⟨q, rfl, ?_⟩
        rw [show extractThreshold (c0 :: c1 :: cs) (cell0 :: Cell.num q :: rest)
              = (if typeOk c1.type = true then
                   if q < 0 then Validated.err (.thresholdNegative q)
                   else Validated.ok (truncToInt q)
                 else Validated.err (.thresholdBadType c1.type)) from rfl] at h
        split at h
        · simp at h
        · simp at h
        · next th heq =>
          simp only [Validated.ok.injEq] at h
          subst h
          split at heq
          · next ht =>
            split at heq
            · simp at heq
            · next hq =>
              simp only [Validated.ok.injEq] at heq
              exact ⟨by simpa [typeOk, or_assoc] using ht, not_lt.mp hq, heq.symm⟩
          · simp at heq
      | other =>
        rw [show extractThreshold (c0 :: c1 :: cs) (cell0 :: Cell.other :: rest)
              = (if typeOk c1.type = true then Validated.err .thresholdNotFloat
                 else Validated.err (.thresholdBadType c1.type)) from rfl] at h
        split at h
        · simp at h
        · simp at h
        · next th heq => split at heq <;> simp at heq
  · intro cell1 rest v hev hnull
    subst hnull
    rw [validateResult_single, hev]
    simp [extractThreshold]
  · intro v hev
    rw [validateResult_single, hev]
    simp [extractThreshold]

/-- Witness for C5: a threshold `100.5` of declared type `long`
truncates to `100`; a null threshold cell is the dedicated error; a
one-cell row yields the sentinel `-1`. -/
theorem threshold_column_rules_witness :
    (validateResult ⟨[⟨"T", [⟨"v", "real"⟩, ⟨"t", "long"⟩], [[Cell.num 3, Cell.num twoHundredOneHalves]]⟩]⟩ 9
        = .ok ⟨3, 100⟩ ∧
      ∃ q : Rat, Cell.num twoHundredOneHalves = .num q ∧
        ((⟨"t", "long"⟩ : Column).type = "real" ∨ (⟨"t", "long"⟩ : Column).type = "int" ∨
          (⟨"t", "long"⟩ : Column).type = "long") ∧
        0 ≤ q ∧ (⟨3, 100⟩ : MetricsData).threshold = truncToInt q) ∧
    (extractValue ⟨"v", "real"⟩ [Cell.num 3, Cell.null] = .ok 3 ∧
      validateResult ⟨[⟨"T", [⟨"v", "real"⟩, ⟨"t", "long"⟩], [[Cell.num 3, Cell.null]]⟩]⟩ 9
        = .err .thresholdEmpty) ∧
    (extractValue ⟨"v", "real"⟩ [Cell.num 3] = .ok 3 ∧
      validateResult ⟨[⟨"T", [⟨"v", "real"⟩, ⟨"t", "long"⟩], [[Cell.num 3]]⟩]⟩ 9
        = .ok ⟨3, -1⟩) :=
  ⟨⟨by decide,
    (threshold_column_rules "T" ⟨"v", "real"⟩ ⟨"t", "long"⟩ [] (Cell.num 3) 9).1
      (Cell.num twoHundredOneHalves) [] ⟨3, 100⟩ (by decide)⟩,
   ⟨rfl,
    (threshold_column_rules "T" ⟨"v", "real"⟩ ⟨"t", "long"⟩ [] (Cell.num 3) 9).2.1
      Cell.null [] 3 rfl rfl⟩,
   ⟨rfl,
    (threshold_column_rules "T" ⟨"v", "real"⟩ ⟨"t", "long"⟩ [] (Cell.num 3) 9).2.2
      3 rfl⟩⟩

/-- When the expired-token condition fires on the first response and the
provider answers the forced refresh successfully, `executeQuery` caches
the refreshed token, retries exactly once, and hands the retried
response (here a second 403) to the status checks, surfacing the
HTTP-error result. -/
theorem executeQuery_retry_shape (meta : ScalerMeta) (tokenInfo : TokenData)
    (now : Int) (env : QueryEnv) (cache : TokenCache) (t2 : TokenData)
    (b1 b2 : Option String) (s1 : Int) (e1 e2 : Bool)
    (h1 : env.rest1 = .res b1 s1 e1)
    (htrig : s1 = 403 ∨ ((b1.getD "").length > 0 ∧ containsSub "TokenExpired" (b1.getD "") = true))
    (hp : env.provider = .ok t2)
    (h2 : env.rest2 = .res b2 403 e2) :
    executeQuery meta tokenInfo now env cache
      = ⟨.err (.queryHTTPError 403 (b2.getD "")), setTokenByIdentity meta cache t2, 2, 1⟩ := by
  simp only [executeQuery, h1, hp]
  rw [if_pos htrig, refreshAccessToken_provider_ok]
  simp only [h2, postProcess]
  rw [if_pos (by constructor <;> omega : (403 : Int) ≠ 200 ∧ (403 : Int) ≠ 0)]

/-- The initial acquisition with a successful provider oracle always
yields a token, calling the provider at most once. -/
theorem getAccessToken_ok_shape (meta : ScalerMeta) (now : Int) (cache : TokenCache)
    (t : TokenData) :
    ∃ tok cache1 n, getAccessToken meta now cache (.ok t) = (.ok tok, cache1, n) ∧ n ≤ 1 := by
  simp only [getAccessToken]
  split
  · rw [refreshAccessToken_provider_ok]
    exact ⟨t, setTokenByIdentity meta cache t, 1, rfl, le_refl 1⟩
  · exact ⟨_, cache, 0, rfl, by omega⟩

/-- Claim C2, amended.  If the first query response triggers the
expired-token condition (status 403, or a non-empty body containing
"TokenExpired"), the provider refresh succeeds, and the retried request
answers 403 again, then the full fetch performs exactly one forced
refresh, exactly two REST attempts, at most two provider calls in total,
and surfaces the HTTP-error result carrying the second response. -/
theorem executeQuery_bounded_retry (meta : ScalerMeta) (now : Int) (cache : TokenCache)
    (t1 t2 : TokenData) (env : QueryEnv)
    (b1 b2 : Option String) (s1 : Int) (e1 e2 : Bool)
    (h1 : env.rest1 = .res b1 s1 e1)
    (htrig : s1 = 403 ∨ ((b1.getD "").length > 0 ∧ containsSub "TokenExpired" (b1.getD "") = true))
    (hp : env.provider = .ok t2)
    (h2 : env.rest2 = .res b2 403 e2) :
    (getMetricData meta now cache (.ok t1) env).queryRefreshCalls = 1 ∧
    (getMetricData meta now cache (.ok t1) env).restCalls = 2 ∧
    (getMetricData meta now cache (.ok t1) env).acquireProviderCalls
        + (getMetricData meta now cache (.ok t1) env).queryRefreshCalls ≤ 2 ∧
    (getMetricData meta now cache (.ok t1) env).outcome
        = .err (.queryHTTPError 403 (b2.getD "")) := by
  obtain ⟨tok, cache1, n, hacq, hn⟩ := getAccessToken_ok_shape meta now cache t1
  simp only [getMetricData, hacq,
    executeQuery_retry_shape meta tok now env cache1 t2 b1 b2 s1 e1 e2 h1 htrig hp h2]
  exact ⟨trivial, trivial, by omega, trivial⟩

/-- Witness for the amended C2: a concrete environment answering 403 on
both attempts. -/
theorem executeQuery_bounded_retry_witness :
    (getMetricData ⟨"tenant", "id", "sec", "ws", "", "q", 7⟩ 0 []
        (.ok ⟨"Bearer", 0, 0, 500, 0, "r", "tok1"⟩)
        ⟨.res (some "denied") 403 false, .ok ⟨"Bearer", 0, 0, 500, 0, "r", "tok2"⟩,
         .res (some "denied") 403 false, fun _ => none⟩).queryRefreshCalls = 1 ∧
    (getMetricData ⟨"tenant", "id", "sec", "ws", "", "q", 7⟩ 0 []
        (.ok ⟨"Bearer", 0, 0, 500, 0, "r", "tok1"⟩)
        ⟨.res (some "denied") 403 false, .ok ⟨"Bearer", 0, 0, 500, 0, "r", "tok2"⟩,
         .res (some "denied") 403 false, fun _ => none⟩).restCalls = 2 ∧
    (getMetricData ⟨"tenant", "id", "sec", "ws", "", "q", 7⟩ 0 []
        (.ok ⟨"Bearer", 0, 0, 500, 0, "r", "tok1"⟩)
        ⟨.res (some "denied") 403 false, .ok ⟨"Bearer", 0, 0, 500, 0, "r", "tok2"⟩,
         .res (some "denied") 403 false, fun _ => none⟩).acquireProviderCalls
      + (getMetricData ⟨"tenant", "id", "sec", "ws", "", "q", 7⟩ 0 []
        (.ok ⟨"Bearer", 0, 0, 500, 0, "r", "tok1"⟩)
        ⟨.res (some "denied") 403 false, .ok ⟨"Bearer", 0, 0, 500, 0, "r", "tok2"⟩,
         .res (some "denied") 403 false, fun _ => none⟩).queryRefreshCalls ≤ 2 ∧
    (getMetricData ⟨"tenant", "id", "sec", "ws", "", "q", 7⟩ 0 []
        (.ok ⟨"Bearer", 0, 0, 500, 0, "r", "tok1"⟩)
        ⟨.res (some "denied") 403 false, .ok ⟨"Bearer", 0, 0, 500, 0, "r", "tok2"⟩,
         .res (some "denied") 403 false, fun _ => none⟩).outcome
      = .err (.queryHTTPError 403 ((some "denied").getD "")) :=
  executeQuery_bounded_retry ⟨"tenant", "id", "sec", "ws", "", "q", 7⟩ 0 []
    ⟨"Bearer", 0, 0, 500, 0, "r", "tok1"⟩ ⟨"Bearer", 0, 0, 500, 0, "r", "tok2"⟩
    ⟨.res (some "denied") 403 false, .ok ⟨"Bearer", 0, 0, 500, 0, "r", "tok2"⟩,
     .res (some "denied") 403 false, fun _ => none⟩
    (some "denied") (some "denied") 403 false false rfl (Or.inl rfl) rfl rfl

set_option maxRecDepth 1000000 in
/-- Claim C2, counterexample.  Both the first and the retried response
trigger the claim's expired-token condition — each has a body containing
the literal marker "TokenExpired" — yet the fetch SUCCEEDS (the retried
response has status 200 and decodes to a valid table), so no QueryError
is surfaced: the retry is handed to the normal status/decode path with
no second expired-token test. -/
theorem executeQuery_marker_twice_succeeds :
    containsSub "TokenExpired" tokenExpiredBody = true ∧
    (getMetricData ⟨"tenant", "id", "sec", "ws", "", "q", 7⟩ 0 []
        (.ok ⟨"Bearer", 0, 0, 500, 0, "r", "tok1"⟩)
        ⟨.res (some tokenExpiredBody) 200 false,
         .ok ⟨"Bearer", 0, 0, 500, 0, "r", "tok2"⟩,
         .res (some tokenExpiredBody) 200 false,
         fun s => if s = tokenExpiredBody then some tokenExpiredTable else none⟩).outcome
      = .ok ⟨1, -1⟩ := by
  constructor
  · decide
  · decide

/-- Claim C9.  Starting from the fresh session cache `{-1, -1}`, when
the first fetch succeeds with a validated sample `m`: two consecutive
`IsActive` calls perform exactly one underlying fetch (the second call
leaves the state untouched, because the validated value is
non-negative); after the first call `metricThreshold` is the sample's
threshold when positive and the configured default otherwise; and
`GetMetrics` performs one new fetch from every state, never consulting
the session cache. -/
theorem facade_caching (meta : ScalerMeta) (fetch : Nat → Except ScalerError MetricsData)
    (qd : QueryResult) (m : MetricsData)
    (h0 : fetch 0 = .ok m)
    (hv : validateResult qd meta.threshold = .ok m) :
    (IsActive meta fetch ⟨⟨-1, -1⟩, 0⟩).2.fetchCount = 1 ∧
    (IsActive meta fetch (IsActive meta fetch ⟨⟨-1, -1⟩, 0⟩).2).2
        = (IsActive meta fetch ⟨⟨-1, -1⟩, 0⟩).2 ∧
    (IsActive meta fetch ⟨⟨-1, -1⟩, 0⟩).2.cache.metricThreshold
        = (if m.threshold > 0 then m.threshold else meta.threshold) ∧
    (∀ st : FacadeState, (GetMetrics fetch st).2.fetchCount = st.fetchCount + 1) := by
  have hval : 0 ≤ m.value := validateResult_ok_value_nonneg qd meta.threshold m hv
  have hstep : IsActive meta fetch ⟨⟨-1, -1⟩, 0⟩
      = (.ok (m.value > 0),
         ⟨⟨m.value, if m.threshold > 0 then m.threshold else meta.threshold⟩, 1⟩) := by
    simp only [IsActive, updateCache]
    rw [if_pos (by norm_num : (-1 : Int) < 0), h0]
  have hstep2 : IsActive meta fetch
      ⟨⟨m.value, if m.threshold > 0 then m.threshold else meta.threshold⟩, 1⟩
      = (.ok (m.value > 0),
         ⟨⟨m.value, if m.threshold > 0 then m.threshold else meta.threshold⟩, 1⟩) := by
    simp only [IsActive, updateCache]
    rw [if_neg (by omega : ¬ m.value < 0)]
  refine ⟨by rw [hstep], by rw [hstep, hstep2], by rw [hstep], ?_⟩
  intro st
  simp only [GetMetrics]
  cases hf : fetch st.fetchCount <;> rfl

/-- Witness for C9: a concrete fetch oracle whose first result is the
validated sample `{3, -1}`; the default threshold 7 is substituted. -/
theorem facade_caching_witness :
    (IsActive ⟨"tenant", "id", "sec", "ws", "", "q", 7⟩
        (fun _ => .ok ⟨3, -1⟩) ⟨⟨-1, -1⟩, 0⟩).2.fetchCount = 1 ∧
    (IsActive ⟨"tenant", "id", "sec", "ws", "", "q", 7⟩ (fun _ => .ok ⟨3, -1⟩)
        (IsActive ⟨"tenant", "id", "sec", "ws", "", "q", 7⟩
          (fun _ => .ok ⟨3, -1⟩) ⟨⟨-1, -1⟩, 0⟩).2).2
      = (IsActive ⟨"tenant", "id", "sec", "ws", "", "q", 7⟩
          (fun _ => .ok ⟨3, -1⟩) ⟨⟨-1, -1⟩, 0⟩).2 ∧
    (IsActive ⟨"tenant", "id", "sec", "ws", "", "q", 7⟩
        (fun _ => .ok ⟨3, -1⟩) ⟨⟨-1, -1⟩, 0⟩).2.cache.metricThreshold
      = (if (⟨3, -1⟩ : MetricsData).threshold > 0 then (⟨3, -1⟩ : MetricsData).threshold
         else (⟨"tenant", "id", "sec", "ws", "", "q", 7⟩ : ScalerMeta).threshold) ∧
    (∀ st : FacadeState,
      (GetMetrics (fun _ => .ok (⟨3, -1⟩ : MetricsData)) st).2.fetchCount
        = st.fetchCount + 1) :=
  facade_caching ⟨"tenant", "id", "sec", "ws", "", "q", 7⟩ (fun _ => .ok ⟨3, -1⟩)
    ⟨[⟨"T", [⟨"v", "long"⟩], [[Cell.num 3]]⟩]⟩ ⟨3, -1⟩ rfl (by decide)
